import Mathlib

/-!
Verification of the Contextual Retrieval Engine of `src/pre_processing.py`
(functions `get_redis_data`, `Timer`, `get_relative_info`), as a shallow
embedding in Lean 4.

Modelling choices:
* The Redis store is modelled by its observable behaviour: the sequence of
  responses it gives to successive `scan(cursor, match, count)` calls and to
  successive `pipeline.execute()` calls, for a given `(pattern, count)` pair.
  An entry `ScanResp.err m` / `PipeResp.err m` models `redis.RedisError`
  being raised by that store operation.
* The cursor-driven `while cursor != 0` loop of `get_redis_data` consumes
  these response lists in order.  If the modelled response list is exhausted
  before the loop terminates, the embedding returns `none` ("the modelled
  trace does not determine the run"); every theorem below is about `some`
  outcomes.
* `@lru_cache(maxsize=128)` keys on the argument tuple
  `(r, pattern, batch_size)`; the Redis client `r` is hashed by object
  identity, modelled as a store id `Nat`.  The cache is explicit state.
* `time.perf_counter()` readings are inputs (`citStart`, `citStop`,
  `drtStart`, `drtStop` : ℚ); `Timer.duration_ms` is
  `round((stop - start) * 1000, 2)`, modelled by `roundTo2` below.
  (Python's `round` breaks ties to even; Mathlib's `round` breaks ties
  upward.  No claim depends on tie-breaking.)
* `logging.warning` / `logging.error` calls are modelled as a list of
  emitted log lines in the result.
-/

/-- Response of the store to one `r.scan(cursor=…, match=…, count=…)` call:
either a raised `redis.RedisError` (with its message) or the next cursor
(`0` terminates the traversal) together with the batch of matching keys. -/
inductive ScanResp where
  | err (msg : String)
  | ok (nextCursor : Nat) (keys : List String)

/-- Response of the store to one `pipe.execute()` call (the batched,
non-transactional `GET`s of one scan batch): either a raised
`redis.RedisError`, or the store's value for each key at fetch time
(`none` = key absent, i.e. Python `None` in the executed pipeline). -/
inductive PipeResp where
  | err (msg : String)
  | ok (val : String → Option String)

/-- Observable behaviour of one Redis client: for each `(pattern, count)`
pair, the responses to successive scan calls and to successive pipeline
executes issued under that pattern. -/
structure StoreBehavior where
  scans : String → Nat → List ScanResp
  pipes : String → Nat → List PipeResp

/-- The log line of `logging.error(f"Redis error during scan/get: {e}")`
in `get_redis_data` (src/pre_processing.py line 33). -/
def redisErrLog (m : String) : String := "Redis error during scan/get: " ++ m

/-- The log line of `logging.error(f"Category identification failed: {e}")`
in `get_relative_info` (src/pre_processing.py line 86). -/
def catFailLog (e : String) : String := "Category identification failed: " ++ e

/-- The log line of `logging.warning("Missing required parameters")`
in `get_relative_info` (src/pre_processing.py line 78). -/
def missingParamsLog : String := "Missing required parameters"

/-- Observable outcome of one run of the body of `get_redis_data`:
the accumulated `(key, value)` pairs, the log lines emitted, and how many
scan calls / pipeline executes were issued to the store. -/
structure RunOut where
  results : List (String × String)
  logs : List String
  scanCalls : Nat
  pipeCalls : Nat
deriving Repr, DecidableEq

/-- The `while cursor != 0` loop of `get_redis_data`
(src/pre_processing.py lines 12–36), consuming the store's scan and
pipeline responses in order.  The initial cursor is the *string* `"0"`,
which is `!= 0`, so the body always runs at least once; thereafter the
loop stops when the returned cursor is `0`.  A `redis.RedisError` from
either operation is caught by the `except` clause, logged, and breaks the
loop, returning the results accumulated so far.  An empty key batch skips
the pipeline (`if not keys: continue`) and continues with the new cursor.
Returns `none` when the modelled response list is exhausted before the
loop terminates. -/
def scanFetchGo (acc : List (String × String)) (logs : List String)
    (sc pc : Nat) : List ScanResp → List PipeResp → Option RunOut
  | [], _ => none
  | ScanResp.err m :: _, _ => some ⟨acc, logs ++ [redisErrLog m], sc + 1, pc⟩
  | ScanResp.ok next keys :: rest, pipes =>
    if keys = [] then
      if next = 0 then some ⟨acc, logs, sc + 1, pc⟩
      else scanFetchGo acc logs (sc + 1) pc rest pipes
    else
      match pipes with
      | [] => none
      | PipeResp.err m :: _ => some ⟨acc, logs ++ [redisErrLog m], sc + 1, pc + 1⟩
      | PipeResp.ok val :: prest =>
        let acc' := acc ++ keys.filterMap fun k => (val k).map fun v => (k, v)
        if next = 0 then some ⟨acc', logs, sc + 1, pc + 1⟩
        else scanFetchGo acc' logs (sc + 1) (pc + 1) rest prest

/-- Body of `get_redis_data(r, pattern, batch_size)`
(src/pre_processing.py lines 10–36), before the `@lru_cache` decorator:
`results = []`, `cursor = "0"`, then the scan/pipeline loop. -/
def get_redis_data_body (b : StoreBehavior) (pattern : String)
    (batchSize : Nat) : Option RunOut :=
  scanFetchGo [] [] 0 0 (b.scans pattern batchSize) (b.pipes pattern batchSize)

/-- Key of the `@lru_cache(maxsize=128)` on `get_redis_data`: the argument
tuple `(r, pattern, batch_size)`, with the client `r` hashed by object
identity (modelled as a store id). -/
abbrev CacheKey := Nat × String × Nat

/-- State of the `lru_cache`: association list from key to cached return
value, most-recently-used first. -/
structure CacheState where
  entries : List (CacheKey × List (String × String))
deriving Repr, DecidableEq

/-- `maxsize=128` of the `lru_cache` decorator (src/pre_processing.py line 9). -/
def lruMaxsize : Nat := 128

/-- Cache lookup: the cached value for a key, if present. -/
def cacheLookup (c : CacheState) (k : CacheKey) : Option (List (String × String)) :=
  (c.entries.find? fun e => decide (e.1 = k)).map (·.2)

/-- On a cache hit, `lru_cache` moves the entry to most-recently-used. -/
def cacheTouch (c : CacheState) (k : CacheKey) (v : List (String × String)) :
    CacheState :=
  ⟨(k, v) :: c.entries.filter fun e => decide (e.1 ≠ k)⟩

/-- On a cache miss, `lru_cache` inserts the computed value as
most-recently-used and evicts least-recently-used entries beyond
`maxsize`. -/
def cacheInsert (c : CacheState) (k : CacheKey) (v : List (String × String)) :
    CacheState :=
  ⟨((k, v) :: c.entries).take lruMaxsize⟩

/-- Observable outcome of one call to the cached `get_redis_data`:
the returned list (`none` when the modelled store trace does not determine
the run), the cache state afterwards, the log lines emitted, and the number
of scan calls / pipeline executes issued to the store by this call
(both `0` on a cache hit). -/
structure CachedOut where
  result : Option (List (String × String))
  cache : CacheState
  logs : List String
  scanCalls : Nat
  pipeCalls : Nat
deriving Repr, DecidableEq

/-- `get_redis_data` as its callers see it: the body of
src/pre_processing.py lines 10–36 under `@lru_cache(maxsize=128)`
(line 9).  On a hit for `(r, pattern, batch_size)` the cached list is
returned with no store traffic and no logging; on a miss the body runs,
its value is cached, and its store traffic and logs are reported. -/
def get_redis_data (stores : Nat → StoreBehavior) (c : CacheState)
    (sid : Nat) (pattern : String) (batchSize : Nat) : CachedOut :=
  match cacheLookup c (sid, pattern, batchSize) with
  | some v => ⟨some v, cacheTouch c (sid, pattern, batchSize) v, [], 0, 0⟩
  | none =>
    match get_redis_data_body (stores sid) pattern batchSize with
    | none => ⟨none, c, [], 0, 0⟩
    | some run =>
      ⟨some run.results, cacheInsert c (sid, pattern, batchSize) run.results,
       run.logs, run.scanCalls, run.pipeCalls⟩

/-- `Timer.duration_ms` (src/pre_processing.py line 51):
`round((stop - start) * 1000, 2)` — milliseconds rounded to two decimal
places.  `start`/`stop` are `time.perf_counter()` readings modelled as
rationals. -/
def roundTo2 (q : ℚ) : ℚ := ((round (q * 100) : ℤ) : ℚ) / 100

/-- Elapsed milliseconds a `Timer` records between two clock readings. -/
def timerMs (start stop : ℚ) : ℚ := roundTo2 ((stop - start) * 1000)

/-- Modelled from the spec: `categorize_question` is called by
`get_relative_info` (src/pre_processing.py line 84) but is not defined in
any file under src/.  Spec §4.1: `classify(question) -> Category` is a
deterministic, side-effect-free black box that may fail with an internal
exception (caught by the caller); the sentinel category `"no"`
(src/pre_processing.py line 89) means no contextual lookup is needed.  We
model it as an arbitrary function from the question text to either the
raised exception's message or a category string. -/
def Categorizer : Type := String → Except String String

/-- Observable outcome of one call to `get_relative_info`: the returned
triple (context string, category-identification ms, data-retrieval ms),
the cache state afterwards, the number of `get_redis_data` invocations
made by the retry loop and the store traffic they issued, the
`time.sleep` backoff waits performed, and the log lines emitted. -/
structure RelInfoOut where
  response : String
  cit : ℚ
  drt : ℚ
  cache : CacheState
  fetchCalls : Nat
  scanCalls : Nat
  pipeCalls : Nat
  sleeps : List ℚ
  logs : List String
deriving Repr, DecidableEq

/-- `get_relative_info(question, r, personality, max_retries, batch_size)`
(src/pre_processing.py lines 53–112).

* Validation (lines 77–79): `if not all([question, r, personality])`
  returns `("", 0, 0)` with a warning.  Python truthiness: a string is
  falsy exactly when empty, the client `r` is falsy exactly when `None`
  (`rOpt = none`); a whitespace-only question is truthy.
* Category identification (lines 82–87) under the cit `Timer`: an
  exception from `categorize_question` is caught and yields the literal
  `return "", 0, 0` (line 87) — the tuple is built from literal zeros,
  not from the timer.
* `category == "no"` (lines 89–90) returns `("", cit, 0)`.
* Retrieval (lines 93–110) under the drt `Timer`: the pattern is the
  f-string `f"{personality}:{category}:*"`, then the retry loop
  `while retry_count < max_retries` runs.  Its body calls
  `get_redis_data` and `break`s; the `except redis.RedisError` handler
  (increment `retry_count`, the exhaustion `return "", cit, 0`, and the
  backoff `time.sleep(0.1 * retry_count)`) can only run if that call
  raises `redis.RedisError` — which it never does, since `get_redis_data`
  catches `redis.RedisError` internally (see `scanFetchGo`, the `err`
  branches).  Hence: with `max_retries = 0` the loop body never runs and
  `results` keeps its initial value `[]` with no store access; otherwise
  exactly one `get_redis_data` call is made, no sleep is performed, and
  the loop exits via `break`.
* Formatting (line 110): `"\n".join(f"{key} - {value}" …)`.

Clock readings of the two `Timer`s are explicit inputs; the result is
`none` only when the modelled store trace does not determine the run. -/
def get_relative_info (categorize : Categorizer) (stores : Nat → StoreBehavior)
    (cache : CacheState) (question : String) (rOpt : Option Nat)
    (personality : String) (maxRetries : Nat) (batchSize : Nat)
    (citStart citStop drtStart drtStop : ℚ) : Option RelInfoOut :=
  if question = "" ∨ rOpt = none ∨ personality = "" then
    some ⟨"", 0, 0, cache, 0, 0, 0, [], [missingParamsLog]⟩
  else
    match categorize question with
    | Except.error e => some ⟨"", 0, 0, cache, 0, 0, 0, [], [catFailLog e]⟩
    | Except.ok category =>
      if category = "no" then
        some ⟨"", timerMs citStart citStop, 0, cache, 0, 0, 0, [], []⟩
      else if maxRetries = 0 then
        -- `while retry_count < max_retries` is false at entry:
        -- `results = []`, no store access, response = "".
        some ⟨"", timerMs citStart citStop, timerMs drtStart drtStop,
              cache, 0, 0, 0, [], []⟩
      else
        match get_redis_data stores cache (rOpt.getD 0)
            (personality ++ ":" ++ category ++ ":*") batchSize with
        | ⟨none, _, _, _, _⟩ => none
        | ⟨some results, cache', logs, sc, pc⟩ =>
          some ⟨String.intercalate "\n"
                  (results.map fun kv => kv.1 ++ " - " ++ kv.2),
                timerMs citStart citStop, timerMs drtStart drtStop,
                cache', 1, sc, pc, [], logs⟩

example :
    get_redis_data_body
      ⟨fun _ _ => [ScanResp.ok 0 ["k1", "k2"]],
       fun _ _ => [PipeResp.ok fun k => if k = "k1" then some "v1" else some "v2"]⟩
      "p" 100
    = some ⟨[("k1", "v1"), ("k2", "v2")], [], 1, 1⟩ := by
  decide

example :
    (get_relative_info (fun _ => Except.ok "cat") (fun _ => ⟨fun _ _ => [ScanResp.ok 0 ["k"]], fun _ _ => [PipeResp.ok fun _ => some "v"]⟩)
      ⟨[]⟩ " " (some 0) "delhi" 3 100 0 0 0 0).map (·.response)
    = some ("k - v") := by
  decide

/-! ### Helper lemmas -/

/-- String concatenation is associative (relates the computed
`String.intercalate` value to the flat concatenation the spec writes). -/
theorem str_append_assoc (a b c : String) : a ++ b ++ c = a ++ (b ++ c) := by
  apply String.ext
  show a.data ++ b.data ++ c.data = a.data ++ (b.data ++ c.data)
  exact List.append_assoc a.data b.data c.data

/-- The join `"\n".join` of exactly two strings. -/
theorem intercalate_pair (a b : String) :
    String.intercalate "\n" [a, b] = a ++ "\n" ++ b := rfl

/-- Rounding to two decimal places preserves non-negativity. -/
theorem roundTo2_nonneg {q : ℚ} (h : 0 ≤ q) : 0 ≤ roundTo2 q := by
  unfold roundTo2
  refine div_nonneg (Int.cast_nonneg.mpr ?_) (by norm_num)
  rw [round_eq]
  exact Int.floor_nonneg.mpr (by linarith)

/-- A `Timer` over a monotone clock records a non-negative duration. -/
theorem timerMs_nonneg {t0 t1 : ℚ} (h : t0 ≤ t1) : 0 ≤ timerMs t0 t1 :=
  roundTo2_nonneg (mul_nonneg (sub_nonneg.mpr h) (by norm_num))

/-- Rounding to two decimal places is the identity on integers. -/
theorem roundTo2_intCast (n : ℤ) : roundTo2 ((n : ℚ)) = n := by
  unfold roundTo2
  rw [show ((n : ℚ) * 100) = ((n * 100 : ℤ) : ℚ) by push_cast; ring, round_intCast]
  push_cast
  exact mul_div_cancel_right₀ (n : ℚ) (by norm_num)

/-- Evaluation of a `Timer` measurement at a whole number of milliseconds. -/
theorem timerMs_eval (t0 t1 : ℚ) (n : ℤ) (h : (t1 - t0) * 1000 = (n : ℚ)) :
    timerMs t0 t1 = n := by
  unfold timerMs
  rw [h]
  exact roundTo2_intCast n

/-- Touching a key makes the subsequent lookup of that key hit. -/
theorem cacheLookup_touch (c : CacheState) (k : CacheKey)
    (v : List (String × String)) :
    cacheLookup (cacheTouch c k v) k = some v := by
  simp [cacheLookup, cacheTouch, List.find?]

/-- Inserting a key makes the subsequent lookup of that key hit. -/
theorem cacheLookup_insert (c : CacheState) (k : CacheKey)
    (v : List (String × String)) :
    cacheLookup (cacheInsert c k v) k = some v := by
  unfold cacheInsert lruMaxsize cacheLookup
  rw [show (128 : Nat) = 127 + 1 from rfl, List.take_succ_cons]
  simp [List.find?]

/-- After a call to the cached `get_redis_data` that determined a result,
the cache maps that call's key to that result. -/
theorem cached_result_in_cache (stores : Nat → StoreBehavior) (c : CacheState)
    (sid : Nat) (pattern : String) (batchSize : Nat)
    (r1 : List (String × String)) (c1 : CacheState) (l1 : List String)
    (s1 p1 : Nat)
    (h : get_redis_data stores c sid pattern batchSize = ⟨some r1, c1, l1, s1, p1⟩) :
    cacheLookup c1 (sid, pattern, batchSize) = some r1 := by
  unfold get_redis_data at h
  cases hl : cacheLookup c (sid, pattern, batchSize) with
  | some v =>
    rw [hl] at h
    simp only [CachedOut.mk.injEq, Option.some.injEq] at h
    obtain ⟨hv, hc1, -, -, -⟩ := h
    rw [← hc1, ← hv]
    exact cacheLookup_touch c (sid, pattern, batchSize) v
  | none =>
    rw [hl] at h
    cases hb : get_redis_data_body (stores sid) pattern batchSize with
    | none => rw [hb] at h; simp at h
    | some run =>
      rw [hb] at h
      simp only [CachedOut.mk.injEq, Option.some.injEq] at h
      obtain ⟨hv, hc1, -, -, -⟩ := h
      rw [← hc1, ← hv]
      exact cacheLookup_insert c (sid, pattern, batchSize) run.results

/-! ### Claims -/

/-- C1 (amended): for the *empty* question string, `get_relative_info`
short-circuits in validation and returns `("", 0, 0)` with no
classification, no store lookup and no retrieval, for any store handle,
personality and configuration.  (The claim's extension to whitespace-only
questions fails: a non-empty whitespace string is truthy in Python, so
`not all([question, r, personality])` does not fire — see the
counterexample.) -/
theorem c1_empty_question_short_circuits (categorize : Categorizer)
    (stores : Nat → StoreBehavior) (cache : CacheState) (question : String)
    (rOpt : Option Nat) (personality : String) (maxRetries batchSize : Nat)
    (t0 t1 t2 t3 : ℚ) (hq : question = "") :
    get_relative_info categorize stores cache question rOpt personality
        maxRetries batchSize t0 t1 t2 t3
      = some ⟨"", 0, 0, cache, 0, 0, 0, [], [missingParamsLog]⟩ := by
  subst hq
  simp [get_relative_info]

/-- C1 witness: the amended theorem applied at a concrete input. -/
theorem c1_empty_question_short_circuits_witness :
    get_relative_info (fun _ => Except.ok "c")
        (fun _ => ⟨fun _ _ => [], fun _ _ => []⟩) ⟨[]⟩ "" (some 0) "p" 3 100
        0 0 0 0
      = some ⟨"", 0, 0, ⟨[]⟩, 0, 0, 0, [], [missingParamsLog]⟩ :=
  c1_empty_question_short_circuits (fun _ => Except.ok "c")
    (fun _ => ⟨fun _ _ => [], fun _ _ => []⟩) ⟨[]⟩ "" (some 0) "p" 3 100
    0 0 0 0 rfl

/-- C1 counterexample: a whitespace-only question (`" "`) is *not*
short-circuited: classification runs, the store is scanned
(`scanCalls = 1`, `fetchCalls = 1`) and a non-empty context is returned
instead of `("", 0, 0)`. -/
theorem c1_whitespace_lookup_counterexample :
    (get_relative_info (fun _ => Except.ok "history")
        (fun _ => ⟨fun _ _ => [ScanResp.ok 0 ["k"]],
                   fun _ _ => [PipeResp.ok fun _ => some "v"]⟩)
        ⟨[]⟩ " " (some 0) "delhi" 3 100 0 0 0 0).map
        (fun o => (o.response, o.fetchCalls, o.scanCalls))
      = some ("k - v", 1, 1) ∧ ("k - v" : String) ≠ "" := by
  exact ⟨by decide, by decide⟩

/-- C2 (code_bug evaluation): a transient store error raised during the
cursor scan is *not* signalled to the caller of `get_redis_data`: the
traversal aborts, the error is logged, and the accumulated (here empty)
entry list is returned as a normal value; consequently the caller's retry
loop in `get_relative_info` sees a success, performs no retry and no
backoff sleep, and returns an empty context.  (The source's own retry
loop, lines 98–107, is written to catch `redis.RedisError` from this call,
which can never arrive.) -/
theorem c2_scan_error_swallowed_run :
    get_redis_data_body
        ⟨fun _ _ => [ScanResp.err "connection reset"], fun _ _ => []⟩ "p:cat:*" 100
      = some ⟨[], [redisErrLog "connection reset"], 1, 0⟩
    ∧ (get_relative_info (fun _ => Except.ok "cat")
        (fun _ => ⟨fun _ _ => [ScanResp.err "connection reset"], fun _ _ => []⟩)
        ⟨[]⟩ "q" (some 0) "p" 3 100 0 0 0 0).map
        (fun o => (o.response, o.fetchCalls, o.sleeps, o.logs))
      = some ("", 1, [], [redisErrLog "connection reset"]) := by
  exact ⟨by decide, by decide⟩

/-- C3: `get_redis_data` never lets a store error reach its caller.
A `redis.RedisError` raised by a scan call, or by a pipeline execute on a
non-empty batch, is logged (`redisErrLog`) and ends the traversal with a
normal return of whatever entries were accumulated before the error.
Consequently, in `get_relative_info`'s retry loop the
`except redis.RedisError` branch is unreachable: every run makes at most
one `get_redis_data` call and performs no backoff sleep. -/
theorem c3_store_errors_never_propagate
    (m : String) (next : Nat) (keys : List String) (rest : List ScanResp)
    (pipes prest : List PipeResp) (acc : List (String × String))
    (logs : List String) (sc pc : Nat) (hk : keys ≠ [])
    (categorize : Categorizer) (stores : Nat → StoreBehavior)
    (cache : CacheState) (question : String) (rOpt : Option Nat)
    (personality : String) (maxRetries batchSize : Nat) (t0 t1 t2 t3 : ℚ)
    (out : RelInfoOut)
    (hout : get_relative_info categorize stores cache question rOpt personality
        maxRetries batchSize t0 t1 t2 t3 = some out) :
    scanFetchGo acc logs sc pc (ScanResp.err m :: rest) pipes
        = some ⟨acc, logs ++ [redisErrLog m], sc + 1, pc⟩
    ∧ scanFetchGo acc logs sc pc (ScanResp.ok next keys :: rest)
          (PipeResp.err m :: prest)
        = some ⟨acc, logs ++ [redisErrLog m], sc + 1, pc + 1⟩
    ∧ out.fetchCalls ≤ 1 ∧ out.sleeps = [] := by
  refine ⟨by simp [scanFetchGo], by simp [scanFetchGo, hk], ?_⟩
  unfold get_relative_info at hout
  split at hout
  · cases hout; exact ⟨Nat.zero_le 1, rfl⟩
  · split at hout
    · cases hout; exact ⟨Nat.zero_le 1, rfl⟩
    · split at hout
      · cases hout; exact ⟨Nat.zero_le 1, rfl⟩
      · split at hout
        · cases hout; exact ⟨Nat.zero_le 1, rfl⟩
        · split at hout
          · exact absurd hout (by simp)
          · cases hout; exact ⟨Nat.le_refl 1, rfl⟩

/-- C3 witness: the theorem applied at concrete inputs. -/
theorem c3_store_errors_never_propagate_witness :
    scanFetchGo [] [] 0 0 [ScanResp.err "e"] []
        = some ⟨[], [] ++ [redisErrLog "e"], 0 + 1, 0⟩
    ∧ scanFetchGo [] [] 0 0 [ScanResp.ok 0 ["k"]] [PipeResp.err "e"]
        = some ⟨[], [] ++ [redisErrLog "e"], 0 + 1, 0 + 1⟩
    ∧ (⟨"", 0, 0, ⟨[]⟩, 0, 0, 0, [], [missingParamsLog]⟩ : RelInfoOut).fetchCalls ≤ 1
    ∧ (⟨"", 0, 0, ⟨[]⟩, 0, 0, 0, [], [missingParamsLog]⟩ : RelInfoOut).sleeps = [] :=
  c3_store_errors_never_propagate "e" 0 ["k"] [] [] [] [] [] 0 0 (by decide)
    (fun _ => Except.ok "c") (fun _ => ⟨fun _ _ => [], fun _ _ => []⟩) ⟨[]⟩
    "" none "p" 3 100 0 0 0 0
    ⟨"", 0, 0, ⟨[]⟩, 0, 0, 0, [], [missingParamsLog]⟩ (by decide)

/-- Join of the empty result list is the empty string. -/
theorem intercalate_nil : String.intercalate "\n" [] = "" := rfl

/-- C4 counterexample: with a store that fails on every attempt,
`max_retries = 3`, a cit phase measuring 5 ms and a drt phase measuring
7 ms, the call returns `("", 5, 7)`: the returned `drt` is the measured
data-retrieval time `7`, which is neither the cit-phase's measured value
`5` nor the `0` that the (unreachable) max-retries exhaustion branch of
line 106 would return. -/
theorem c4_returned_drt_counterexample :
    (get_relative_info (fun _ => Except.ok "cat")
        (fun _ => ⟨fun _ _ => [ScanResp.err "down"], fun _ _ => []⟩)
        ⟨[]⟩ "q" (some 0) "p" 3 100 0 (1/200) 0 (7/1000)).map
        (fun o => (o.response, o.cit, o.drt))
      = some ("", 5, 7) ∧ (7 : ℚ) ≠ 5 ∧ (7 : ℚ) ≠ 0 := by
  refine ⟨?_, by norm_num, by norm_num⟩
  have h1 : timerMs 0 (1/200) = ((5 : ℤ) : ℚ) := timerMs_eval 0 (1/200) 5 (by norm_num)
  have h2 : timerMs 0 (7/1000) = ((7 : ℤ) : ℚ) := timerMs_eval 0 (7/1000) 7 (by norm_num)
  have hrun : (get_relative_info (fun _ => Except.ok "cat")
      (fun _ => ⟨fun _ _ => [ScanResp.err "down"], fun _ _ => []⟩)
      ⟨[]⟩ "q" (some 0) "p" 3 100 0 (1/200) 0 (7/1000)).map
      (fun o => (o.response, o.cit, o.drt))
      = some ("", timerMs 0 (1/200), timerMs 0 (7/1000)) := rfl
  rw [hrun, h1, h2]
  norm_num

/-- C4 (amended): if the store fails (raises `redis.RedisError`) on its
first scan call — as a store failing on every attempt does — then
`get_relative_info` returns an empty context string with the store error
logged, propagates no exception (the result is a normal `some`), and the
returned timings are the *measured* cit and drt values: the drt phase
completes and records a time because `get_redis_data` swallows the error,
so the max-retries exhaustion branch (which would return drt `0`) never
runs and exactly one fetch is made. -/
theorem c4_store_failure_empty_context (categorize : Categorizer)
    (stores : Nat → StoreBehavior) (cache : CacheState) (question : String)
    (sid : Nat) (personality cat m : String) (rest : List ScanResp)
    (maxRetries batchSize : Nat) (t0 t1 t2 t3 : ℚ)
    (hq : question ≠ "") (hp : personality ≠ "")
    (hc : categorize question = Except.ok cat) (hcat : cat ≠ "no")
    (hmr : maxRetries ≠ 0)
    (hmiss : cacheLookup cache (sid, personality ++ ":" ++ cat ++ ":*", batchSize)
        = none)
    (hscan : (stores sid).scans (personality ++ ":" ++ cat ++ ":*") batchSize
        = ScanResp.err m :: rest) :
    get_relative_info categorize stores cache question (some sid) personality
        maxRetries batchSize t0 t1 t2 t3
      = some ⟨"", timerMs t0 t1, timerMs t2 t3,
              cacheInsert cache (sid, personality ++ ":" ++ cat ++ ":*", batchSize) [],
              1, 1, 0, [], [redisErrLog m]⟩ := by
  have hg : get_redis_data stores cache sid (personality ++ ":" ++ cat ++ ":*")
      batchSize
      = ⟨some [],
         cacheInsert cache (sid, personality ++ ":" ++ cat ++ ":*", batchSize) [],
         [redisErrLog m], 1, 0⟩ := by
    unfold get_redis_data
    rw [hmiss]
    unfold get_redis_data_body
    rw [hscan]
    simp [scanFetchGo]
  simp [get_relative_info, hq, hp, hc, hcat, hmr, hg, intercalate_nil]

/-- C4 witness: the amended theorem applied at a concrete input. -/
theorem c4_store_failure_empty_context_witness :
    get_relative_info (fun _ => Except.ok "cat")
        (fun _ => ⟨fun _ _ => [ScanResp.err "down"], fun _ _ => []⟩)
        ⟨[]⟩ "q" (some 0) "p" 3 100 0 (1/200) 0 (7/1000)
      = some ⟨"", timerMs 0 (1/200), timerMs 0 (7/1000),
              cacheInsert ⟨[]⟩ (0, "p" ++ ":" ++ "cat" ++ ":*", 100) [],
              1, 1, 0, [], [redisErrLog "down"]⟩ :=
  c4_store_failure_empty_context (fun _ => Except.ok "cat")
    (fun _ => ⟨fun _ _ => [ScanResp.err "down"], fun _ _ => []⟩) ⟨[]⟩ "q" 0 "p"
    "cat" "down" [] 3 100 0 (1/200) 0 (7/1000)
    (by decide) (by decide) rfl (by decide) (by decide) rfl rfl

/-- C5 (code_bug evaluation): with a store that fails on the first two scan
attempts and would succeed on the third (yielding key `k1` with value
`v1`), and `max_retries = 3`, the call does *not* eventually succeed:
`get_redis_data` swallows the first error internally, so
`get_relative_info` makes exactly one fetch, performs no backoff sleep
(total wait `0`, not `≥ 0.1*1 + 0.1*2`), and returns the empty context
instead of the retrieved `"k1 - v1"`. -/
theorem c5_retry_backoff_dead_run :
    (get_relative_info (fun _ => Except.ok "cat")
        (fun _ => ⟨fun _ _ => [ScanResp.err "e1", ScanResp.err "e2",
                               ScanResp.ok 0 ["k1"]],
                   fun _ _ => [PipeResp.ok fun _ => some "v1"]⟩)
        ⟨[]⟩ "q" (some 0) "p" 3 100 0 0 0 0).map
        (fun o => (o.response, o.fetchCalls, o.sleeps, o.logs))
      = some ("", 1, [], [redisErrLog "e1"]) ∧ ("" : String) ≠ "k1 - v1" := by
  exact ⟨by decide, by decide⟩

/-- C6: when the category classifier raises an internal exception,
`get_relative_info` catches it, logs it, and returns `("", 0, 0)` — an
empty result, drt `0`, and as cit the value measured up to the failure
point, which is `0` because the returned tuple is built from the literal
zeros of line 87 before the cit `Timer` records anything.  No exception
propagates and no store access happens. -/
theorem c6_classifier_failure_zero_result (categorize : Categorizer)
    (stores : Nat → StoreBehavior) (cache : CacheState) (question : String)
    (rOpt : Option Nat) (personality : String) (maxRetries batchSize : Nat)
    (t0 t1 t2 t3 : ℚ) (e : String)
    (hq : question ≠ "") (hr : rOpt ≠ none) (hp : personality ≠ "")
    (hc : categorize question = Except.error e) :
    get_relative_info categorize stores cache question rOpt personality
        maxRetries batchSize t0 t1 t2 t3
      = some ⟨"", 0, 0, cache, 0, 0, 0, [], [catFailLog e]⟩ := by
  simp [get_relative_info, hq, hr, hp, hc]

/-- C6 witness: the theorem applied at a concrete input. -/
theorem c6_classifier_failure_zero_result_witness :
    get_relative_info (fun _ => Except.error "boom")
        (fun _ => ⟨fun _ _ => [], fun _ _ => []⟩) ⟨[]⟩ "q" (some 0) "p" 3 100
        0 0 0 0
      = some ⟨"", 0, 0, ⟨[]⟩, 0, 0, 0, [], [catFailLog "boom"]⟩ :=
  c6_classifier_failure_zero_result (fun _ => Except.error "boom")
    (fun _ => ⟨fun _ _ => [], fun _ _ => []⟩) ⟨[]⟩ "q" (some 0) "p" 3 100
    0 0 0 0 "boom" (by decide) (by decide) (by decide) rfl

/-- C7: for a store whose scan under the constructed pattern returns the
keys `[k1, k2]` in one batch and whose batched read finds values `v1` and
`v2` for them, `get_relative_info` returns the formatted context string
`k1 ++ " - " ++ v1 ++ "\n" ++ k2 ++ " - " ++ v2`: each found pair rendered
as `key - value`, pairs joined by newlines in scan-then-fetch order. -/
theorem c7_two_entry_format (categorize : Categorizer)
    (stores : Nat → StoreBehavior) (cache : CacheState) (question : String)
    (sid : Nat) (personality cat k1 k2 v1 v2 : String)
    (val : String → Option String) (maxRetries batchSize : Nat)
    (t0 t1 t2 t3 : ℚ)
    (hq : question ≠ "") (hp : personality ≠ "")
    (hc : categorize question = Except.ok cat) (hcat : cat ≠ "no")
    (hmr : maxRetries ≠ 0)
    (hmiss : cacheLookup cache (sid, personality ++ ":" ++ cat ++ ":*", batchSize)
        = none)
    (hscan : (stores sid).scans (personality ++ ":" ++ cat ++ ":*") batchSize
        = [ScanResp.ok 0 [k1, k2]])
    (hpipe : (stores sid).pipes (personality ++ ":" ++ cat ++ ":*") batchSize
        = [PipeResp.ok val])
    (hv1 : val k1 = some v1) (hv2 : val k2 = some v2) :
    (get_relative_info categorize stores cache question (some sid) personality
        maxRetries batchSize t0 t1 t2 t3).map (fun o => o.response)
      = some (k1 ++ " - " ++ v1 ++ "\n" ++ k2 ++ " - " ++ v2) := by
  have hg : get_redis_data stores cache sid (personality ++ ":" ++ cat ++ ":*")
      batchSize
      = ⟨some [(k1, v1), (k2, v2)],
         cacheInsert cache (sid, personality ++ ":" ++ cat ++ ":*", batchSize)
           [(k1, v1), (k2, v2)], [], 1, 1⟩ := by
    unfold get_redis_data
    rw [hmiss]
    unfold get_redis_data_body
    rw [hscan, hpipe]
    simp [scanFetchGo, hv1, hv2]
  simp [get_relative_info, hq, hp, hc, hcat, hmr, hg, intercalate_pair]
  simp [str_append_assoc]

/-- C7 witness: the theorem applied at a concrete input. -/
theorem c7_two_entry_format_witness :
    (get_relative_info (fun _ => Except.ok "cat")
        (fun _ => ⟨fun _ _ => [ScanResp.ok 0 ["k1", "k2"]],
                   fun _ _ => [PipeResp.ok fun k =>
                     if k = "k1" then some "v1" else some "v2"]⟩)
        ⟨[]⟩ "q" (some 0) "p" 3 100 0 0 0 0).map (fun o => o.response)
      = some ("k1" ++ " - " ++ "v1" ++ "\n" ++ "k2" ++ " - " ++ "v2") :=
  c7_two_entry_format (fun _ => Except.ok "cat")
    (fun _ => ⟨fun _ _ => [ScanResp.ok 0 ["k1", "k2"]],
               fun _ _ => [PipeResp.ok fun k =>
                 if k = "k1" then some "v1" else some "v2"]⟩)
    ⟨[]⟩ "q" 0 "p" "cat" "k1" "k2" "v1" "v2"
    (fun k => if k = "k1" then some "v1" else some "v2") 3 100 0 0 0 0
    (by decide) (by decide) rfl (by decide) (by decide) rfl rfl rfl rfl rfl

/-- C8: for any batch of keys returned by one scan, the pipelined fetch
contributes exactly the entries whose value is present at fetch time, in
the input key order (`List.filterMap` over the keys); a key whose value is
absent is silently dropped — no error is raised and no log line or
placeholder is produced.  (The pipeline is only issued for a non-empty
batch; an empty batch issues no pipeline execute.) -/
theorem c8_pipelined_fetch_order_and_misses (keys : List String)
    (val : String → Option String) (pattern : String) (batchSize : Nat) :
    get_redis_data_body
        ⟨fun _ _ => [ScanResp.ok 0 keys], fun _ _ => [PipeResp.ok val]⟩
        pattern batchSize
      = some ⟨keys.filterMap fun k => (val k).map fun v => (k, v), [],
              1, if keys = [] then 0 else 1⟩ := by
  unfold get_redis_data_body
  by_cases h : keys = []
  · subst h
    simp [scanFetchGo]
  · simp [scanFetchGo, h]

/-- C9: a second call to the memoized `get_redis_data` with the identical
`(store identity, pattern, batch_size)` key returns the same result list
as the first call and issues no store operations at all (zero scan calls,
zero pipeline executes, no logging): it is served from the `lru_cache`. -/
theorem c9_second_call_cache_hit (stores : Nat → StoreBehavior)
    (c : CacheState) (sid : Nat) (pattern : String) (batchSize : Nat)
    (r1 : List (String × String)) (c1 : CacheState) (l1 : List String)
    (s1 p1 : Nat)
    (h : get_redis_data stores c sid pattern batchSize = ⟨some r1, c1, l1, s1, p1⟩) :
    get_redis_data stores c1 sid pattern batchSize
      = ⟨some r1, cacheTouch c1 (sid, pattern, batchSize) r1, [], 0, 0⟩ := by
  have hl := cached_result_in_cache stores c sid pattern batchSize r1 c1 l1 s1 p1 h
  unfold get_redis_data
  rw [hl]

/-- C9 witness: the theorem applied after a concrete first (miss) call. -/
theorem c9_second_call_cache_hit_witness :
    get_redis_data (fun _ => ⟨fun _ _ => [ScanResp.ok 0 ["k"]],
                              fun _ _ => [PipeResp.ok fun _ => some "v"]⟩)
        (cacheInsert ⟨[]⟩ (0, "p", 100) [("k", "v")]) 0 "p" 100
      = ⟨some [("k", "v")],
         cacheTouch (cacheInsert ⟨[]⟩ (0, "p", 100) [("k", "v")]) (0, "p", 100)
           [("k", "v")], [], 0, 0⟩ :=
  c9_second_call_cache_hit
    (fun _ => ⟨fun _ _ => [ScanResp.ok 0 ["k"]],
               fun _ _ => [PipeResp.ok fun _ => some "v"]⟩)
    ⟨[]⟩ 0 "p" 100 [("k", "v")] (cacheInsert ⟨[]⟩ (0, "p", 100) [("k", "v")])
    [] 1 1 rfl

/-- C10: when classification yields the distinguished no-context category
`"no"`, `get_relative_info` returns `("", cit, 0)` where cit is the
measured category-identification time, with `cit ≥ 0` under a monotone
clock; no key pattern is built and no store access of any kind happens
(zero fetches, zero scan calls, zero pipeline executes). -/
theorem c10_no_context_short_drt (categorize : Categorizer)
    (stores : Nat → StoreBehavior) (cache : CacheState) (question : String)
    (rOpt : Option Nat) (personality : String) (maxRetries batchSize : Nat)
    (t0 t1 t2 t3 : ℚ)
    (hq : question ≠ "") (hr : rOpt ≠ none) (hp : personality ≠ "")
    (hc : categorize question = Except.ok "no") (ht : t0 ≤ t1) :
    get_relative_info categorize stores cache question rOpt personality
        maxRetries batchSize t0 t1 t2 t3
      = some ⟨"", timerMs t0 t1, 0, cache, 0, 0, 0, [], []⟩
    ∧ 0 ≤ timerMs t0 t1 :=
  ⟨by simp [get_relative_info, hq, hr, hp, hc], timerMs_nonneg ht⟩

/-- C10 witness: the theorem applied at a concrete input. -/
theorem c10_no_context_short_drt_witness :
    get_relative_info (fun _ => Except.ok "no")
        (fun _ => ⟨fun _ _ => [], fun _ _ => []⟩) ⟨[]⟩ "q" (some 0) "p" 3 100
        0 (1/1000) 0 0
      = some ⟨"", timerMs 0 (1/1000), 0, ⟨[]⟩, 0, 0, 0, [], []⟩
    ∧ 0 ≤ timerMs 0 (1/1000) :=
  c10_no_context_short_drt (fun _ => Except.ok "no")
    (fun _ => ⟨fun _ _ => [], fun _ _ => []⟩) ⟨[]⟩ "q" (some 0) "p" 3 100
    0 (1/1000) 0 0 (by decide) (by decide) (by decide) rfl (by norm_num)
